import Mathlib

/-!
Verification model of the Instagram-Auto-Post-Tool-V3 repository.

The post store (`modules/post_manager.py`) keeps one JSON file per post in a
directory per lifecycle status; it is modelled as three lists of records.
The scheduler (`modules/scheduler.py`) computes publish timestamps; datetimes
are modelled as exact fractions of minutes since an epoch midnight (the type
`Q` below), so that `datetime.replace`, day/hour extraction and Python's float
division of the posting window are exact.  The background publisher
(`background_publisher.py`) classifies scheduled posts by the difference
`now - scheduled_time` in seconds and handles publish failures.
`utils/datetime_helper.py` preprocesses ISO strings before handing them to the
standard-library parsers, which are treated as an external boundary.
-/

namespace AutoPost

/-! ## Exact time arithmetic

A `datetime`/`timedelta` value is a fraction `n / d` of minutes (denominator
kept positive by construction).  `Q.val` interprets it in `ℚ`; the operations
below are plain integer arithmetic so that concrete runs of the model can be
evaluated by `decide`. -/

/-- A fraction of minutes: numerator and (positive) denominator. -/
structure Q where
  n : ℤ
  d : ℤ
deriving DecidableEq

/-- The rational value of a fraction. -/
def Q.val (a : Q) : ℚ := (a.n : ℚ) / (a.d : ℚ)

/-- Positivity of the denominator (holds for every value the model builds). -/
def Q.posden (a : Q) : Prop := 0 < a.d

instance (a : Q) : Decidable a.posden := by
  unfold Q.posden
  infer_instance

/-- An integer number of minutes. -/
def qofInt (n : ℤ) : Q := ⟨n, 1⟩

def qadd (a b : Q) : Q := ⟨a.n * b.d + b.n * a.d, a.d * b.d⟩

def qsub (a b : Q) : Q := ⟨a.n * b.d - b.n * a.d, a.d * b.d⟩

/-- Multiplication by a natural number (`interval * i`). -/
def qmulN (a : Q) (k : ℕ) : Q := ⟨a.n * (k : ℤ), a.d⟩

/-- Division by a natural number (`total_minutes / posts_count`). -/
def qdivN (a : Q) (k : ℕ) : Q := ⟨a.n, a.d * (k : ℤ)⟩

/-- `a ≤ b`, by cross-multiplication (valid for positive denominators). -/
def qleB (a b : Q) : Bool := decide (a.n * b.d ≤ b.n * a.d)

/-- `a < b`, by cross-multiplication (valid for positive denominators). -/
def qltB (a b : Q) : Bool := decide (a.n * b.d < b.n * a.d)

/-- Floor to an integer, with Python floor-division semantics. -/
def qfloor (a : Q) : ℤ := Int.fdiv a.n a.d

/-- The calendar day of a time value (`datetime.date()`). -/
def day_of (t : Q) : ℤ := Int.fdiv (qfloor t) 1440

/-- The hour component of a time value (`datetime.hour`). -/
def hour_of (t : Q) : ℤ := Int.fdiv (Int.fmod (qfloor t) 1440) 60

/-- The sub-minute part of a time value (seconds and microseconds). -/
def sec_part (t : Q) : Q := qsub t (qofInt (qfloor t))

/-- `t.replace(hour=h, minute=m)`: keeps the day and the sub-minute part. -/
def repl_hm (t : Q) (h m : ℤ) : Q := qadd (qofInt (1440 * day_of t + 60 * h + m)) (sec_part t)

/-- `t.replace(minute=0, second=0, microsecond=0)`: keeps the day and hour. -/
def repl_msu0 (t : Q) : Q := qofInt (1440 * day_of t + 60 * hour_of t)

/-- `scheduler.py` lines 135-137: drop seconds, then floor the minute-of-hour
to a multiple of 5 (`minute = (start_time.minute // 5) * 5`). -/
def round5 (t : Q) : Q :=
  qofInt (qfloor t - Int.fmod (qfloor t) 60 + 5 * Int.fdiv (Int.fmod (qfloor t) 60) 5)

/-! ## Scheduler (`modules/scheduler.py`)

Configuration from `config.py`: `POSTING_START_HOUR = 8`,
`POSTING_END_HOUR = 23`, `DEFAULT_SETTINGS['min_post_interval'] = 30`. -/

def POSTING_START_HOUR : ℤ := 8
def POSTING_END_HOUR : ℤ := 23
def min_post_interval : ℤ := 30

/-- The inner loop of `_distribute_posts_in_day` (lines 158-170): for each
`i < posts_count`, `scheduled_time = start_time + interval * i`; `break` once
the hour reaches `POSTING_END_HOUR`; skip times not strictly after `now`. -/
def collect_times (now start_time interval : Q) : ℕ → ℕ → List Q
  | _, 0 => []
  | i, k + 1 =>
    if POSTING_END_HOUR ≤ hour_of (qadd start_time (qmulN interval i)) then []
    else if qleB (qadd start_time (qmulN interval i)) now then
      collect_times now start_time interval (i + 1) k
    else
      qadd start_time (qmulN interval i) :: collect_times now start_time interval (i + 1) k

/-- `_distribute_posts_in_day` line 128: `start_date.replace(hour=8, minute=0)`. -/
def dist_st0 (start_date : Q) : Q := repl_hm start_date POSTING_START_HOUR 0

/-- `_distribute_posts_in_day` line 129: `start_date.replace(hour=23, minute=0)`. -/
def dist_en0 (start_date : Q) : Q := repl_hm start_date POSTING_END_HOUR 0

/-- Lines 131-137: if planning for today and the 08:00 start is already past,
restart from `now + min_post_interval` rounded down to 5 minutes. -/
def dist_st1 (now start_date : Q) : Q :=
  if day_of (dist_st0 start_date) == day_of now && qltB (dist_st0 start_date) now then
    round5 (qadd now (qofInt min_post_interval))
  else dist_st0 start_date

/-- Lines 139-150: if the remaining window cannot fit `posts_count` posts at
the minimum interval (`total_minutes < posts_count * min_interval`), move the
whole bucket to the next day's full window.  This is the final loop start. -/
def dist_st2 (now start_date : Q) (posts_count : ℕ) : Q :=
  if qltB (qsub (dist_en0 start_date) (dist_st1 now start_date)) (qofInt ((posts_count : ℤ) * min_post_interval)) then
    repl_hm (qadd (dist_st1 now start_date) (qofInt 1440)) POSTING_START_HOUR 0
  else dist_st1 now start_date

/-- The end of the window actually used (line 149 when moved, line 129 else). -/
def dist_en2 (now start_date : Q) (posts_count : ℕ) : Q :=
  if qltB (qsub (dist_en0 start_date) (dist_st1 now start_date)) (qofInt ((posts_count : ℤ) * min_post_interval)) then
    repl_hm (dist_st2 now start_date posts_count) POSTING_END_HOUR 0
  else dist_en0 start_date

/-- Lines 152-156: `interval = total_minutes / posts_count`, floored at the
minimum interval.  (Python raises on `posts_count = 0`; every caller passes a
positive count.) -/
def dist_interval (now start_date : Q) (posts_count : ℕ) : Q :=
  if qltB (qdivN (qsub (dist_en2 now start_date posts_count) (dist_st2 now start_date posts_count)) posts_count) (qofInt min_post_interval) then
    qofInt min_post_interval
  else
    qdivN (qsub (dist_en2 now start_date posts_count) (dist_st2 now start_date posts_count)) posts_count

/-- `PostScheduler._distribute_posts_in_day` (lines 123-172). -/
def distribute_posts_in_day (now start_date : Q) (posts_count : ℕ) : List Q :=
  collect_times now (dist_st2 now start_date posts_count)
    (dist_interval now start_date posts_count) 0 posts_count

/-- `schedule_posts_for_account` lines 50-56: `start_date.replace(minute=0,
second=0, microsecond=0)`, clamped up to `now` when in the past. -/
def clamped_start (now start_date : Q) : Q :=
  if qltB (repl_msu0 start_date) now then now else repl_msu0 start_date

/-- `schedule_posts_for_account` lines 58-68: clamp the start instant into the
posting window.  Before the window: snap to 08:00 the same day; at or after
`POSTING_END_HOUR`: snap to 08:00 the next day; otherwise add one minimum
interval. -/
def compute_start_time (now start_date : Q) : Q :=
  if hour_of (clamped_start now start_date) < POSTING_START_HOUR then
    repl_hm (clamped_start now start_date) POSTING_START_HOUR 0
  else if POSTING_END_HOUR ≤ hour_of (clamped_start now start_date) then
    repl_hm (qadd (clamped_start now start_date) (qofInt 1440)) POSTING_START_HOUR 0
  else
    qadd (clamped_start now start_date) (qofInt min_post_interval)

/-- The day-bucket loop of `schedule_posts_for_account` (lines 76-116): each
day handles `min posts_per_day remaining` posts; the times produced by
`_distribute_posts_in_day` each consume one post id (`post_index` advances
once per produced time); the loop runs until all posts are consumed.  `fuel`
bounds the number of days examined (the Python `while` is unbounded). -/
def assign_day_buckets (now start_time : Q) (posts_per_day : ℕ) : ℕ → ℕ → ℕ → List (List Q)
  | 0, _, _ => []
  | _ + 1, _, 0 => []
  | fuel + 1, current_day, r + 1 =>
    distribute_posts_in_day now (qadd start_time (qofInt (1440 * (current_day : ℤ)))) (min posts_per_day (r + 1)) ::
      assign_day_buckets now start_time posts_per_day fuel (current_day + 1)
        (r + 1 - (distribute_posts_in_day now (qadd start_time (qofInt (1440 * (current_day : ℤ)))) (min posts_per_day (r + 1))).length)

/-! ## Post store (`modules/post_manager.py`)

A post is the JSON record built by `create_post` (lines 27-38); statuses are
the strings of `config.POST_STATUS`.  The store is the three directories
`data/posts/drafts`, `data/posts/scheduled`, `data/posts/published`, each a
list of records keyed by `id` (one file per post). -/

structure Post where
  id : String
  account_id : String
  text : String
  media : List String
  format : String
  status : String
  scheduled_time : Option String
  created_at : String
  published_at : Option String
  error : Option String
deriving DecidableEq

structure Store where
  drafts : List Post
  scheduled : List Post
  published : List Post
deriving DecidableEq

/-- Reading the file `{post_id}.json` from a directory. -/
def find_file (dir : List Post) (post_id : String) : Option Post :=
  dir.find? (fun q => q.id == post_id)

/-- Writing `{p.id}.json` into a directory: overwrite if present, else create. -/
def put_file (dir : List Post) (p : Post) : List Post :=
  if dir.any (fun q => q.id == p.id) then
    dir.map (fun q => if q.id == p.id then p else q)
  else dir ++ [p]

/-- `post_file.unlink()` guarded by `post_file.exists()`. -/
def del_file (dir : List Post) (post_id : String) : List Post :=
  dir.filter (fun q => q.id != post_id)

/-- `PostManager._get_status_dir` (lines 210-219): any unknown status —
including `"error"` — falls through to the drafts directory. -/
def get_status_dir (s : Store) (status : String) : List Post :=
  if status = "draft" then s.drafts
  else if status = "scheduled" then s.scheduled
  else if status = "published" then s.published
  else s.drafts

/-- Writing back the directory chosen by `_get_status_dir`. -/
def set_status_dir (s : Store) (status : String) (dir : List Post) : Store :=
  if status = "draft" then { s with drafts := dir }
  else if status = "scheduled" then { s with scheduled := dir }
  else if status = "published" then { s with published := dir }
  else { s with drafts := dir }

/-- `PostManager._save_post` (lines 193-200). -/
def save_post (s : Store) (p : Post) : Store :=
  set_status_dir s p.status (put_file (get_status_dir s p.status) p)

/-- `PostManager._delete_post_file` (lines 202-208). -/
def delete_post_file (s : Store) (post_id status : String) : Store :=
  set_status_dir s status (del_file (get_status_dir s status) post_id)

/-- `PostManager.get_post` (lines 122-134): search drafts, then scheduled,
then published; first hit wins. -/
def get_post (s : Store) (post_id : String) : Option Post :=
  match find_file s.drafts post_id with
  | some p => some p
  | none =>
    match find_file s.scheduled post_id with
    | some p => some p
    | none => find_file s.published post_id

/-- `PostManager.create_post` (lines 22-43); `post_id` models `uuid.uuid4()`
and `created_at` models `datetime.now().isoformat()`; the `status` argument
defaults to `"draft"` in the source.  No validation is performed. -/
def create_post (s : Store) (post_id account_id text : String) (media : List String)
    (post_format status created_at : String) : Store × Post :=
  let p : Post :=
    { id := post_id, account_id := account_id, text := text, media := media,
      format := post_format, status := status, scheduled_time := none,
      created_at := created_at, published_at := none, error := none }
  (save_post s p, p)

/-- `PostManager.update_post` (lines 45-61): `updates` is the merged-dict
transformation; the old file is deleted only when the status changed. -/
def update_post (s : Store) (post_id : String) (updates : Post → Post) : Store × Option Post :=
  match get_post s post_id with
  | none => (s, none)
  | some p =>
    let p2 := updates p
    let s2 := if p.status ≠ p2.status then delete_post_file s post_id p.status else s
    (save_post s2 p2, some p2)

/-- `PostManager.schedule_post` (lines 63-79): delete the draft file only if
the post currently is a draft, then set `status`/`scheduled_time` and save. -/
def schedule_post (s : Store) (post_id scheduled_time : String) : Store × Option Post :=
  match get_post s post_id with
  | none => (s, none)
  | some p =>
    let s2 := if p.status = "draft" then delete_post_file s post_id "draft" else s
    let p2 := { p with status := "scheduled", scheduled_time := some scheduled_time }
    (save_post s2 p2, some p2)

/-- `PostManager.publish_post` (lines 81-97): delete the scheduled file only
if the post currently is scheduled, then set `status`/`published_at` and
save.  `scheduled_time` is left as it was; no transition check is made. -/
def publish_post (s : Store) (now post_id : String) : Store × Option Post :=
  match get_post s post_id with
  | none => (s, none)
  | some p =>
    let s2 := if p.status = "scheduled" then delete_post_file s post_id "scheduled" else s
    let p2 := { p with status := "published", published_at := some now }
    (save_post s2 p2, some p2)

/-- `PostManager.mark_post_error` (lines 99-111): set `status`/`error` and
save; no file is deleted from the previous status directory. -/
def mark_post_error (s : Store) (post_id error : String) : Store × Option Post :=
  match get_post s post_id with
  | none => (s, none)
  | some p =>
    let p2 := { p with status := "error", error := some error }
    (save_post s p2, some p2)

/-- In how many status partitions does a record with this id exist? -/
def partition_count (s : Store) (post_id : String) : ℕ :=
  (if s.drafts.any (fun q => q.id == post_id) then 1 else 0) +
    (if s.scheduled.any (fun q => q.id == post_id) then 1 else 0) +
    (if s.published.any (fun q => q.id == post_id) then 1 else 0)

/-! ## Schedule index and batch loop (`modules/scheduler.py` lines 89-116)

`PostScheduler.schedule` maps an account id to a list of entries; one call of
`schedule_posts_for_account` only appends to the entries of the given
account, so the model carries that account's entry list. -/

structure ScheduleEntry where
  post_id : String
  scheduled_time : String
  status : String
deriving DecidableEq

/-- The inner loop of `schedule_posts_for_account`: each computed time is
paired with the next post id (`post_index` advances once per time, found or
not); a found post is scheduled and an entry with status `'scheduled'` is
appended; a missing post id leaves store and entries untouched and the batch
continues.  Returns (store, account's entries, the `scheduled_posts` list). -/
def run_schedule_batch : Store → List ScheduleEntry → List (String × String) →
    Store × List ScheduleEntry × List Post
  | s, entries, [] => (s, entries, [])
  | s, entries, (post_id, t) :: rest =>
    match schedule_post s post_id t with
    | (s1, none) => run_schedule_batch s1 entries rest
    | (s1, some p) =>
      let step := run_schedule_batch s1 (entries ++ [⟨post_id, t, "scheduled"⟩]) rest
      (step.1, step.2.1, p :: step.2.2)

/-! ## Background publisher (`background_publisher.py`) -/

/-- Classification of one scheduled post in `_check_and_publish`
(lines 85-103), by `time_diff = (now - scheduled_time).total_seconds()`. -/
inductive TickClass where
  | stale
  | due
  | pending
deriving DecidableEq

/-- Lines 86, 94, 97, 100: over one hour late is stale; between 2 minutes
early and 10 minutes late is due; more than 2 minutes early is pending; the
remaining band (10 minutes to an hour late) is published anyway. -/
def classify_time_diff (time_diff : ℚ) : TickClass :=
  if 3600 < time_diff then .stale
  else if -120 ≤ time_diff ∧ time_diff ≤ 600 then .due
  else if time_diff < -120 then .pending
  else .due

/-- The error note recorded on demotion (line 124). -/
def missed_note : String := "Пропущена запланированная публикация (сервер был выключен)"

/-- Demotion of a stale post (lines 108-125): delete the scheduled file, then
save the record as a draft with `scheduled_time` cleared and the note set. -/
def move_to_drafts (s : Store) (post_id : String) : Store :=
  match get_post s post_id with
  | none => s
  | some p =>
    save_post (delete_post_file s post_id "scheduled")
      { p with status := "draft", scheduled_time := none, error := some missed_note }

/-- Character-by-character check that `needle` begins `haystack`. -/
def heads_seq : List Char → List Char → Bool
  | [], _ => true
  | _ :: _, [] => false
  | a :: as, b :: bs => a == b && heads_seq as bs

/-- Substring check, as Python's `in` operator on strings. -/
def contains_seq (needle : List Char) : List Char → Bool
  | [] => heads_seq needle []
  | c :: rest => heads_seq needle (c :: rest) || contains_seq needle rest

/-- `_publish_post` line 250: `"Слишком рано" in error_msg or "wait" in
error_msg.lower()` (ASCII lowering, as only ASCII letters can contribute to
the marker `"wait"`). -/
def is_timing_error (msg : String) : Bool :=
  contains_seq "Слишком рано".data msg.data ||
    contains_seq "wait".data (msg.data.map Char.toLower)

/-- The `except` handler of `_publish_post` (lines 246-259): a timing
violation leaves the store untouched (the post stays scheduled, nothing is
recorded); any other failure message is recorded via `mark_post_error`. -/
def handle_publish_failure (s : Store) (post_id msg : String) : Store :=
  if is_timing_error msg then s else (mark_post_error s post_id msg).1

/-! ## ISO datetime preprocessing (`utils/datetime_helper.py`)

`parse_iso_datetime` strips a trailing `'Z'` and a trailing 3-digit
fractional part, then tries `datetime.fromisoformat` followed by three
`strptime` formats.  The standard-library parsers are an external boundary:
the model takes them as a parameter `lib` mapping a format to a partial
parse function (result in seconds, `none` for `ValueError`). -/

inductive LibFmt where
  | isoformat
  | fmtHM
  | fmtHMS
  | fmtHMSf

/-- Lines 22-23: drop a single trailing `'Z'`. -/
def stripZ (l : List Char) : List Char :=
  if l.getLast? = some 'Z' then l.dropLast else l

/-- Line 26: `re.sub(r'\.\d{3}$', '', s)` — drop a final dot-plus-3-digits. -/
def stripMillis (l : List Char) : List Char :=
  match l.reverse with
  | d1 :: d2 :: d3 :: c :: _ =>
    if c = '.' ∧ d1.isDigit ∧ d2.isDigit ∧ d3.isDigit then l.take (l.length - 4) else l
  | _ => l

/-- `parse_iso_datetime` (lines 7-45): empty input raises (modelled `none`);
otherwise preprocess and try the four parsers in order. -/
def parse_iso_datetime (lib : LibFmt → List Char → Option ℚ) (s : List Char) : Option ℚ :=
  if s = [] then none
  else
    match lib .isoformat (stripMillis (stripZ s)) with
    | some v => some v
    | none =>
      match lib .fmtHM (stripMillis (stripZ s)) with
      | some v => some v
      | none =>
        match lib .fmtHMS (stripMillis (stripZ s)) with
        | some v => some v
        | none => lib .fmtHMSf (stripMillis (stripZ s))

/-- `_check_and_publish` line 80: `time_diff = (now - scheduled_time)
.total_seconds()` — the parsed wall-clock value is compared directly with
the local clock. -/
def publish_time_diff (now scheduled : ℚ) : ℚ := now - scheduled

/-! ## Concrete fixtures -/

/-- A scheduled post, stored in the scheduled partition. -/
def sched_post : Post :=
  { id := "p0", account_id := "a1", text := "hello", media := ["m.jpg"],
    format := "photo", status := "scheduled",
    scheduled_time := some "2025-10-10T10:00", created_at := "2025-10-01T00:00:00",
    published_at := none, error := none }

def sched_store : Store := { drafts := [], scheduled := [sched_post], published := [] }

/-- A draft post, stored in the drafts partition. -/
def draft_post : Post :=
  { id := "d0", account_id := "a1", text := "draft text", media := ["n.jpg"],
    format := "photo", status := "draft", scheduled_time := none,
    created_at := "2025-10-02T00:00:00", published_at := none, error := none }

def draft_store : Store := { drafts := [draft_post], scheduled := [], published := [] }

/-- A published post, stored in the published partition. -/
def published_post : Post :=
  { id := "u0", account_id := "a1", text := "old", media := ["o.jpg"],
    format := "photo", status := "published", scheduled_time := none,
    created_at := "2025-09-01T00:00:00", published_at := some "2025-09-02T09:00:00",
    error := none }

def published_store : Store := { drafts := [], scheduled := [], published := [published_post] }

def empty_store : Store := { drafts := [], scheduled := [], published := [] }

/-- The invariant of the claim: `scheduled ⇔ scheduled_time set` and
`published ⇔ published_time set`. -/
def status_time_invariant (p : Post) : Prop :=
  (p.status = "scheduled" ↔ p.scheduled_time ≠ none) ∧
    (p.status = "published" ↔ p.published_at ≠ none)

instance (p : Post) : Decidable (status_time_invariant p) := by
  unfold status_time_invariant
  infer_instance

/-- The record `publish_post` produces from `sched_post`. -/
def published_from_sched : Post :=
  { sched_post with status := "published", published_at := some "2025-10-10T11:00:00" }

/-- A parser oracle for witnesses: every format accepts every string. -/
def lib0 : LibFmt → List Char → Option ℚ := fun _ _ => some 0

/-! ## Store lemmas -/

theorem find_file_put_file (dir : List Post) (p : Post) :
    find_file (put_file dir p) p.id = some p := by
  unfold put_file
  by_cases h : dir.any (fun q => q.id == p.id)
  · rw [if_pos h]
    induction dir with
    | nil => simp at h
    | cons q rest ih =>
      simp only [List.any_cons, Bool.or_eq_true] at h
      simp only [List.map_cons]
      by_cases hq : (q.id == p.id) = true
      · rw [if_pos hq]
        unfold find_file
        rw [List.find?_cons_of_pos _ (by simp)]
      · rw [if_neg hq]
        rcases h with h | h
        · exact absurd h hq
        · unfold find_file
          rw [List.find?_cons_of_neg _ (by simpa using hq)]
          exact ih h
  · rw [if_neg h]
    have hall : ∀ q ∈ dir, ¬ (q.id == p.id) = true := by
      intro q hq heq
      exact h (List.any_eq_true.mpr ⟨q, hq, heq⟩)
    unfold find_file
    rw [List.find?_append, List.find?_eq_none.mpr hall]
    simp [List.find?]

theorem get_post_id_eq (s : Store) (post_id : String) (p : Post)
    (h : get_post s post_id = some p) : p.id = post_id := by
  unfold get_post at h
  have of_find : ∀ dir : List Post, find_file dir post_id = some p → p.id = post_id := by
    intro dir hf
    have := List.find?_some hf
    simpa using this
  cases h1 : find_file s.drafts post_id with
  | some q => rw [h1] at h; cases h; exact of_find _ h1
  | none =>
    rw [h1] at h
    cases h2 : find_file s.scheduled post_id with
    | some q => rw [h2] at h; cases h; exact of_find _ h2
    | none => rw [h2] at h; exact of_find _ h

/-- Saving a record whose status maps to the drafts directory (`"draft"` or
the fall-through case `"error"`) makes it the record `get_post` returns. -/
theorem get_post_save_to_drafts (s : Store) (p : Post)
    (h : p.status = "draft" ∨ p.status = "error") :
    get_post (save_post s p) p.id = some p := by
  have hdir : save_post s p = { s with drafts := put_file s.drafts p } := by
    rcases h with h | h <;>
      simp [save_post, get_status_dir, set_status_dir, h]
  rw [hdir]
  unfold get_post
  rw [find_file_put_file]

/-! ## Claim C1 -/

/-- Claim C1: after any status-changing operation the post's record should
exist in exactly one status partition.  The code violates this:
`mark_post_error` saves the error record into the drafts directory (the
`_get_status_dir` fall-through) without deleting the file in the scheduled
directory, so after marking a scheduled post as failed the record exists in
two partitions at once. -/
theorem c1_mark_error_two_partitions :
    partition_count (mark_post_error sched_store "p0" "boom").1 "p0" = 2 ∧
      partition_count sched_store "p0" = 1 := by
  decide

/-! ## Claim C9 -/

/-- Claim C9 counterexample: `create_post` performs no validation at all —
called with an empty media list it succeeds and returns a draft post with
empty media, rather than failing. -/
theorem c9_create_empty_media_succeeds :
    ((create_post empty_store "n1" "a1" "txt" [] "photo" "draft" "2025-10-01T00:00:00").2.status
        = "draft") ∧
      ((create_post empty_store "n1" "a1" "txt" [] "photo" "draft" "2025-10-01T00:00:00").2.media
        = []) := by
  decide

/-- Claim C9 (amended): `create_post` returns a new post in DRAFT status with
no timestamps set, for any media list — the store does not enforce that media
is non-empty (an empty list is accepted unchanged). -/
theorem c9_create_post_no_validation (s : Store) (pid acc txt fmt ca : String)
    (media : List String) :
    (create_post s pid acc txt media fmt "draft" ca).2.status = "draft" ∧
      (create_post s pid acc txt media fmt "draft" ca).2.media = media ∧
      (create_post s pid acc txt media fmt "draft" ca).2.scheduled_time = none ∧
      (create_post s pid acc txt media fmt "draft" ca).2.published_at = none := by
  exact ⟨rfl, rfl, rfl, rfl⟩

/-- What `publish_post` returns when the post exists. -/
theorem publish_post_some (s : Store) (now pid : String) (p : Post)
    (h : get_post s pid = some p) :
    (publish_post s now pid).2 =
      some { p with status := "published", published_at := some now } := by
  unfold publish_post
  rw [h]

/-! ## Claim C7 -/

/-- Claim C7 counterexample: `publish_post` neither clears `scheduled_time`
(the published record still carries the old timestamp) nor rejects posts that
are not currently scheduled (a draft post is published without error). -/
theorem c7_publish_no_transition_check :
    ((publish_post sched_store "2025-10-10T11:00:00" "p0").2.map Post.scheduled_time
        = some (some "2025-10-10T10:00")) ∧
      ((publish_post draft_store "2025-10-10T11:00:00" "d0").2.map Post.status
        = some "published") := by
  decide

/-- Claim C7 (amended): `publish_post(id)` sets status `published` and
`published_at = now` but leaves `scheduled_time` unchanged; it returns `none`
(not found) when the id is absent, and performs no transition check — a post
of any current status is marked published. -/
theorem c7_publish_post_behavior (s : Store) (now post_id : String) :
    (get_post s post_id = none → publish_post s now post_id = (s, none)) ∧
      (∀ p, get_post s post_id = some p →
        (publish_post s now post_id).2 =
          some { p with status := "published", published_at := some now }) := by
  constructor
  · intro h; unfold publish_post; rw [h]
  · intro p h; exact publish_post_some s now post_id p h

/-- Witness for C7 at a concrete input. -/
theorem c7_publish_post_behavior_witness :
    (publish_post sched_store "2025-10-10T11:00:00" "p0").2 = some published_from_sched :=
  (c7_publish_post_behavior sched_store "2025-10-10T11:00:00" "p0").2 sched_post (by decide)

/-! ## Claim C2 -/

/-- Claim C2 counterexample: the scheduled fixture satisfies the
status/timestamp equivalences, but after `publish_post` the record has status
`published` while `scheduled_time` is still set, so the equivalence
`scheduled ⇔ scheduled_time set` is broken by a store operation. -/
theorem c2_publish_breaks_invariant :
    status_time_invariant sched_post ∧
      (publish_post sched_store "2025-10-10T11:00:00" "p0").2 = some published_from_sched ∧
      ¬ status_time_invariant published_from_sched := by
  decide

/-- Claim C2 (amended): freshly created drafts and `schedule_post` results
satisfy the equivalences, but `publish_post` does not clear `scheduled_time`:
publishing a scheduled post yields a record with `published` status, a set
`published_at`, and the old `scheduled_time` still present, violating the
invariant. -/
theorem c2_status_time_fields (s : Store) (pid acc txt fmt ca t now : String)
    (media : List String) :
    status_time_invariant (create_post s pid acc txt media fmt "draft" ca).2 ∧
      (∀ p, get_post s pid = some p →
        (schedule_post s pid t).2.map Post.status = some "scheduled" ∧
          (schedule_post s pid t).2.map Post.scheduled_time = some (some t)) ∧
      (∀ p, get_post s pid = some p →
        (publish_post s now pid).2.map Post.status = some "published" ∧
          (publish_post s now pid).2.map Post.published_at = some (some now) ∧
          (publish_post s now pid).2.map Post.scheduled_time = some p.scheduled_time) ∧
      (∀ p, get_post s pid = some p → p.scheduled_time ≠ none →
        ∀ q, (publish_post s now pid).2 = some q → ¬ status_time_invariant q) := by
  refine ⟨⟨by simp [create_post], by simp [create_post]⟩, ?_, ?_, ?_⟩
  · intro p h
    unfold schedule_post
    rw [h]
    exact ⟨rfl, rfl⟩
  · intro p h
    rw [publish_post_some s now pid p h]
    exact ⟨rfl, rfl, rfl⟩
  · intro p h hst q hq
    rw [publish_post_some s now pid p h] at hq
    have hq2 : q = { p with status := "published", published_at := some now } :=
      (Option.some.inj hq).symm
    intro hinv
    rw [hq2] at hinv
    have hs : ({ p with status := "published", published_at := some now } : Post).status
        = "scheduled" := hinv.1.mpr (by simpa using hst)
    simp at hs

/-- Witness for the amended C2 at a concrete input. -/
theorem c2_status_time_fields_witness :
    (publish_post sched_store "2025-10-10T11:00:00" "p0").2.map Post.status
        = some "published" ∧
      ¬ status_time_invariant published_from_sched := by
  constructor
  · exact ((c2_status_time_fields sched_store "p0" "a" "x" "photo" "ca" "T"
      "2025-10-10T11:00:00" []).2.2.1 sched_post (by decide)).1
  · exact (c2_status_time_fields sched_store "p0" "a" "x" "photo" "ca" "T"
      "2025-10-10T11:00:00" []).2.2.2 sched_post (by decide) (by decide)
      published_from_sched (by decide)

/-! ## Claim C8 -/

/-- Claim C8 counterexample: `schedule_post` does not skip posts that are not
drafts — a post currently in PUBLISHED status is rescheduled (its status is
overwritten to `scheduled`), while the claim says it should be skipped
unchanged. -/
theorem c8_non_draft_not_skipped :
    (schedule_post published_store "u0" "2025-10-11T09:00").2.map Post.status
        = some "scheduled" ∧
      (schedule_post published_store "u0" "2025-10-11T09:00").2.map Post.scheduled_time
        = some (some "2025-10-11T09:00") := by
  decide

/-- What `schedule_post` returns when the post exists. -/
theorem schedule_post_some (s : Store) (pid t : String) (p : Post)
    (h : get_post s pid = some p) :
    (schedule_post s pid t).2 =
      some { p with status := "scheduled", scheduled_time := some t } := by
  unfold schedule_post
  rw [h]

/-- Claim C8 (amended): during batch assignment a post id that is not found
is skipped — the store is left unchanged by that step, no schedule entry is
appended, and the rest of the batch is still processed; but a found post is
scheduled regardless of its current status (non-draft posts are not
skipped). -/
theorem c8_batch_skip_behavior (s : Store) (entries : List ScheduleEntry)
    (pid t : String) (rest : List (String × String)) :
    (get_post s pid = none →
      run_schedule_batch s entries ((pid, t) :: rest) = run_schedule_batch s entries rest) ∧
      (∀ p, get_post s pid = some p →
        run_schedule_batch s entries ((pid, t) :: rest) =
          ((run_schedule_batch (schedule_post s pid t).1
              (entries ++ [⟨pid, t, "scheduled"⟩]) rest).1,
            (run_schedule_batch (schedule_post s pid t).1
              (entries ++ [⟨pid, t, "scheduled"⟩]) rest).2.1,
            { p with status := "scheduled", scheduled_time := some t } ::
              (run_schedule_batch (schedule_post s pid t).1
                (entries ++ [⟨pid, t, "scheduled"⟩]) rest).2.2)) := by
  constructor
  · intro h
    have hsp : schedule_post s pid t = (s, none) := by
      unfold schedule_post
      rw [h]
    rw [run_schedule_batch, hsp]
  · intro p h
    have hsp : schedule_post s pid t =
        ((schedule_post s pid t).1,
          some { p with status := "scheduled", scheduled_time := some t }) := by
      rw [← schedule_post_some s pid t p h]
    rw [run_schedule_batch, hsp]

/-- Witness for C8 at a concrete input: an absent id is skipped and the
following draft in the batch is still scheduled. -/
theorem c8_batch_skip_behavior_witness :
    run_schedule_batch draft_store [] [("missing", "T1"), ("d0", "T2")] =
      run_schedule_batch draft_store [] [("d0", "T2")] := by
  have h := (c8_batch_skip_behavior draft_store [] "missing" "T1" [("d0", "T2")]).1 (by decide)
  exact h

/-! ## Claim C4 -/

/-- Claim C4: a publish failure whose message contains a timing-violation
marker (`"Слишком рано"` or `"wait"` in the lowered message) changes no post
state; any other failure message marks the post as ERROR with that message
recorded (the record `get_post` then returns is the error record). -/
theorem c4_publish_failure (s : Store) (post_id msg : String) (p : Post)
    (h : get_post s post_id = some p) :
    (is_timing_error msg = true → handle_publish_failure s post_id msg = s) ∧
      (is_timing_error msg = false →
        get_post (handle_publish_failure s post_id msg) post_id =
          some { p with status := "error", error := some msg }) := by
  constructor
  · intro hm
    unfold handle_publish_failure
    rw [if_pos hm]
  · intro hm
    unfold handle_publish_failure
    rw [if_neg (by simp [hm])]
    have hme : (mark_post_error s post_id msg).1 =
        save_post s { p with status := "error", error := some msg } := by
      unfold mark_post_error
      rw [h]
    rw [hme]
    have hid : ({ p with status := "error", error := some msg } : Post).id = post_id := by
      simpa using get_post_id_eq s post_id p h
    rw [← hid]
    exact get_post_save_to_drafts s _ (Or.inr rfl)

/-- Witness for C4 at concrete inputs: the literal timing message from
`_check_instagram_limits` leaves the store untouched; the message `"boom"`
produces an error record. -/
theorem c4_publish_failure_witness :
    handle_publish_failure sched_store "p0" "Слишком рано! Нужно подождать еще 5 минут"
        = sched_store ∧
      get_post (handle_publish_failure sched_store "p0" "boom") "p0" =
        some { sched_post with status := "error", error := some "boom" } := by
  constructor
  · exact (c4_publish_failure sched_store "p0" "Слишком рано! Нужно подождать еще 5 минут"
      sched_post (by decide)).1 (by decide)
  · exact (c4_publish_failure sched_store "p0" "boom" sched_post (by decide)).2 (by decide)

/-! ## Claim C3 -/

/-- Claim C3: `_check_and_publish` classifies a scheduled post by
`time_diff = now - scheduled_time` (seconds): more than 3600s late is stale,
anything from 120s early to 3600s late is published this tick, more than
120s early is pending; in particular `now - 90s` is due, `now - 3700s` is
stale and `now + 500s` is pending.  A stale post is demoted: status draft,
`scheduled_time` cleared, and the explanatory note recorded. -/
theorem c3_tick_classification (d now : ℚ) (s : Store) (post_id : String) (p : Post) :
    (3600 < d → classify_time_diff d = .stale) ∧
      (-120 ≤ d → d ≤ 3600 → classify_time_diff d = .due) ∧
      (d < -120 → classify_time_diff d = .pending) ∧
      classify_time_diff (now - (now - 90)) = .due ∧
      classify_time_diff (now - (now - 3700)) = .stale ∧
      classify_time_diff (now - (now + 500)) = .pending ∧
      (get_post s post_id = some p →
        get_post (move_to_drafts s post_id) post_id =
          some { p with status := "draft", scheduled_time := none,
                        error := some missed_note }) := by
  have e90 : now - (now - 90) = 90 := by ring
  have e3700 : now - (now - 3700) = 3700 := by ring
  have e500 : now - (now + 500) = -500 := by ring
  refine ⟨?_, ?_, ?_, ?_, ?_, ?_, ?_⟩
  · intro h
    unfold classify_time_diff
    rw [if_pos h]
  · intro h1 h2
    unfold classify_time_diff
    by_cases h3 : d ≤ 600
    · rw [if_neg (by linarith), if_pos ⟨h1, h3⟩]
    · rw [if_neg (by linarith), if_neg (by rintro ⟨-, hc⟩; exact h3 hc),
        if_neg (by linarith)]
  · intro h
    unfold classify_time_diff
    rw [if_neg (by linarith), if_neg (by rintro ⟨hc, -⟩; linarith), if_pos h]
  · rw [e90]
    unfold classify_time_diff
    rw [if_neg (by norm_num), if_pos (by norm_num)]
  · rw [e3700]
    unfold classify_time_diff
    rw [if_pos (by norm_num)]
  · rw [e500]
    unfold classify_time_diff
    rw [if_neg (by norm_num), if_neg (by rintro ⟨hc, -⟩; norm_num at hc),
      if_pos (by norm_num)]
  · intro h
    unfold move_to_drafts
    rw [h]
    have hid : ({ p with status := "draft", scheduled_time := none, error := some missed_note } : Post).id = post_id := by
      simpa using get_post_id_eq s post_id p h
    rw [← hid]
    exact get_post_save_to_drafts _ _ (Or.inl rfl)

/-- Witness for C3 at concrete inputs. -/
theorem c3_tick_classification_witness :
    classify_time_diff 3700 = .stale ∧ classify_time_diff 90 = .due ∧
      classify_time_diff (-500) = .pending ∧
      get_post (move_to_drafts sched_store "p0") "p0" =
        some { sched_post with status := "draft", scheduled_time := none,
                               error := some missed_note } := by
  refine ⟨(c3_tick_classification 3700 0 empty_store "x" sched_post).1 (by norm_num),
    (c3_tick_classification 90 0 empty_store "x" sched_post).2.1 (by norm_num) (by norm_num),
    (c3_tick_classification (-500) 0 empty_store "x" sched_post).2.2.1 (by norm_num),
    (c3_tick_classification 0 0 sched_store "p0" sched_post).2.2.2.2.2.2 (by decide)⟩

/-! ## Claim C10 -/

/-- Claim C10: for an ISO timestamp string ending in `'Z'` (so the part
before the marker carries no further `'Z'`), `parse_iso_datetime` returns
exactly what it returns for the string with the `'Z'` removed — the UTC
marker is discarded — and consequently the publish loop's
`time_diff = now - scheduled_time` against the local clock is the same for
both spellings. -/
theorem c10_parse_drops_utc_marker (lib : LibFmt → List Char → Option ℚ)
    (s : List Char) (now : ℚ) (hne : s ≠ []) (hz : s.getLast? ≠ some 'Z') :
    parse_iso_datetime lib (s ++ ['Z']) = parse_iso_datetime lib s ∧
      (parse_iso_datetime lib (s ++ ['Z'])).map (publish_time_diff now) =
        (parse_iso_datetime lib s).map (publish_time_diff now) := by
  have h1 : stripZ (s ++ ['Z']) = s := by
    unfold stripZ
    rw [if_pos (by simp), List.dropLast_concat]
  have h2 : stripZ s = s := by
    unfold stripZ
    rw [if_neg hz]
  have hne2 : s ++ ['Z'] ≠ [] := by simp
  have hmain : parse_iso_datetime lib (s ++ ['Z']) = parse_iso_datetime lib s := by
    unfold parse_iso_datetime
    rw [if_neg hne2, if_neg hne, h1, h2]
  exact ⟨hmain, by rw [hmain]⟩

/-- Witness for C10 at a concrete input. -/
theorem c10_parse_drops_utc_marker_witness :
    parse_iso_datetime lib0 ("2025-10-25T11:58:00.000".data ++ ['Z']) =
      parse_iso_datetime lib0 "2025-10-25T11:58:00.000".data :=
  (c10_parse_drops_utc_marker lib0 "2025-10-25T11:58:00.000".data 0
    (by decide) (by decide)).1

/-! ## Arithmetic soundness of the fraction type -/

theorem posden_qofInt (n : ℤ) : (qofInt n).posden := by
  simp [qofInt, Q.posden]

theorem posden_qadd {a b : Q} (ha : a.posden) (hb : b.posden) : (qadd a b).posden :=
  mul_pos ha hb

theorem posden_qsub {a b : Q} (ha : a.posden) (hb : b.posden) : (qsub a b).posden :=
  mul_pos ha hb

theorem posden_qmulN (a : Q) (k : ℕ) (ha : a.posden) : (qmulN a k).posden := ha

theorem posden_qdivN {a : Q} {k : ℕ} (ha : a.posden) (hk : 0 < k) : (qdivN a k).posden :=
  mul_pos ha (by exact_mod_cast hk)

theorem posden_sec_part {t : Q} (ht : t.posden) : (sec_part t).posden :=
  posden_qsub ht (posden_qofInt _)

theorem posden_repl_hm {t : Q} (ht : t.posden) (h m : ℤ) : (repl_hm t h m).posden :=
  posden_qadd (posden_qofInt _) (posden_sec_part ht)

theorem val_qofInt (n : ℤ) : (qofInt n).val = (n : ℚ) := by
  simp [qofInt, Q.val]

theorem val_qadd {a b : Q} (ha : a.posden) (hb : b.posden) :
    (qadd a b).val = a.val + b.val := by
  have ha' : ((a.d : ℚ)) ≠ 0 := ne_of_gt (by exact_mod_cast ha)
  have hb' : ((b.d : ℚ)) ≠ 0 := ne_of_gt (by exact_mod_cast hb)
  unfold Q.val qadd
  push_cast
  field_simp

theorem val_qmulN (a : Q) (k : ℕ) : (qmulN a k).val = a.val * (k : ℚ) := by
  unfold Q.val qmulN
  push_cast
  ring

theorem qleB_eq_true_iff {a b : Q} (ha : a.posden) (hb : b.posden) :
    qleB a b = true ↔ a.val ≤ b.val := by
  have ha' : (0 : ℚ) < (a.d : ℚ) := by exact_mod_cast ha
  have hb' : (0 : ℚ) < (b.d : ℚ) := by exact_mod_cast hb
  unfold qleB Q.val
  rw [decide_eq_true_iff, div_le_div_iff₀ ha' hb']
  constructor
  · intro h; exact_mod_cast h
  · intro h; exact_mod_cast h

theorem qltB_eq_true_iff {a b : Q} (ha : a.posden) (hb : b.posden) :
    qltB a b = true ↔ a.val < b.val := by
  have ha' : (0 : ℚ) < (a.d : ℚ) := by exact_mod_cast ha
  have hb' : (0 : ℚ) < (b.d : ℚ) := by exact_mod_cast hb
  unfold qltB Q.val
  rw [decide_eq_true_iff, div_lt_div_iff₀ ha' hb']
  constructor
  · intro h; exact_mod_cast h
  · intro h; exact_mod_cast h

/-! ## Positivity through the scheduler -/

theorem posden_dist_st0 {sd : Q} (hsd : sd.posden) : (dist_st0 sd).posden :=
  posden_repl_hm hsd _ _

theorem posden_dist_en0 {sd : Q} (hsd : sd.posden) : (dist_en0 sd).posden :=
  posden_repl_hm hsd _ _

theorem posden_dist_st1 {now sd : Q} (hsd : sd.posden) : (dist_st1 now sd).posden := by
  unfold dist_st1
  split_ifs
  · exact posden_qofInt _
  · exact posden_dist_st0 hsd

theorem posden_dist_st2 {now sd : Q} (hsd : sd.posden) (c : ℕ) :
    (dist_st2 now sd c).posden := by
  unfold dist_st2
  split_ifs
  · exact posden_repl_hm (posden_qadd (posden_dist_st1 hsd) (posden_qofInt _)) _ _
  · exact posden_dist_st1 hsd

theorem posden_dist_en2 {now sd : Q} (hsd : sd.posden) (c : ℕ) :
    (dist_en2 now sd c).posden := by
  unfold dist_en2
  split_ifs with h
  · exact posden_repl_hm (posden_dist_st2 hsd c) _ _
  · exact posden_dist_en0 hsd

theorem posden_dist_interval {now sd : Q} (hsd : sd.posden) {c : ℕ} (hc : 0 < c) :
    (dist_interval now sd c).posden := by
  unfold dist_interval
  split_ifs
  · exact posden_qofInt _
  · exact posden_qdivN (posden_qsub (posden_dist_en2 hsd c) (posden_dist_st2 hsd c)) hc

/-- The interval chosen by `_distribute_posts_in_day` is at least the
configured minimum of 30 minutes. -/
theorem dist_interval_ge_min {now sd : Q} (hsd : sd.posden) {c : ℕ} (hc : 0 < c) :
    (30 : ℚ) ≤ (dist_interval now sd c).val := by
  unfold dist_interval
  split_ifs with h
  · rw [val_qofInt]
    norm_num [min_post_interval]
  · have hX : (qdivN (qsub (dist_en2 now sd c) (dist_st2 now sd c)) c).posden :=
      posden_qdivN (posden_qsub (posden_dist_en2 hsd c) (posden_dist_st2 hsd c)) hc
    have hiff := qltB_eq_true_iff hX (posden_qofInt min_post_interval)
    have h30 : ¬ (qdivN (qsub (dist_en2 now sd c) (dist_st2 now sd c)) c).val
        < (qofInt min_post_interval).val := fun hlt => h (hiff.mpr hlt)
    rw [val_qofInt] at h30
    norm_num [min_post_interval] at h30
    exact h30

/-! ## Properties of the collection loop -/

/-- Every time kept by the inner loop is strictly after `now`. -/
theorem collect_times_mem_gt {now st I : Q} (hn : now.posden) (hst : st.posden)
    (hI : I.posden) :
    ∀ k i t, t ∈ collect_times now st I i k → now.val < t.val := by
  intro k
  induction k with
  | zero => intro i t ht; simp [collect_times] at ht
  | succ k ih =>
    intro i t ht
    rw [collect_times] at ht
    split_ifs at ht with h1 h2
    · simp at ht
    · exact ih (i + 1) t ht
    · rcases List.mem_cons.mp ht with rfl | ht2
      · have hp : (qadd st (qmulN I i)).posden := posden_qadd hst (posden_qmulN I i hI)
        exact lt_of_not_le fun hle => h2 ((qleB_eq_true_iff hp hn).mpr hle)
      · exact ih (i + 1) t ht2

/-- Every time kept by the inner loop from index `i` on is at least
`start + interval * i`. -/
theorem collect_times_mem_lb {now st I : Q} (hst : st.posden) (hI : I.posden)
    (hIv : 0 ≤ I.val) :
    ∀ k i t, t ∈ collect_times now st I i k → st.val + I.val * i ≤ t.val := by
  intro k
  induction k with
  | zero => intro i t ht; simp [collect_times] at ht
  | succ k ih =>
    intro i t ht
    rw [collect_times] at ht
    split_ifs at ht with h1 h2
    · simp at ht
    · have := ih (i + 1) t ht
      push_cast at this ⊢
      nlinarith
    · rcases List.mem_cons.mp ht with rfl | ht2
      · rw [val_qadd hst (posden_qmulN I i hI), val_qmulN]
      · have := ih (i + 1) t ht2
        push_cast at this ⊢
        nlinarith

/-- Consecutive kept times are at least one interval apart. -/
theorem collect_times_chain (now : Q) {st I : Q} (hst : st.posden) (hI : I.posden)
    (hIv : 0 ≤ I.val) :
    ∀ k i, List.Chain' (fun a b : Q => a.val + I.val ≤ b.val)
      (collect_times now st I i k) := by
  intro k
  induction k with
  | zero => intro i; simp [collect_times]
  | succ k ih =>
    intro i
    rw [collect_times]
    split_ifs with h1 h2
    · simp
    · exact ih (i + 1)
    · rw [List.chain'_cons']
      refine ⟨?_, ih (i + 1)⟩
      intro y hy
      have hym : y ∈ collect_times now st I (i + 1) k := List.mem_of_mem_head? hy
      have hlb := collect_times_mem_lb hst hI hIv k (i + 1) y hym
      have hval : (qadd st (qmulN I i)).val = st.val + I.val * (i : ℚ) := by
        rw [val_qadd hst (posden_qmulN I i hI), val_qmulN]
      rw [hval]
      push_cast at hlb
      linarith

/-- Kept times are pairwise at least 30 minutes apart whenever the interval
is at least 30 minutes. -/
theorem collect_times_pairwise30 {now st I : Q} (hst : st.posden) (hI : I.posden)
    (h30 : (30 : ℚ) ≤ I.val) :
    ∀ k i, List.Pairwise (fun a b : Q => a.val + 30 ≤ b.val)
      (collect_times now st I i k) := by
  intro k i
  have hIv : (0 : ℚ) ≤ I.val := by linarith
  have hch := collect_times_chain now hst hI hIv k i
  haveI : IsTrans Q (fun a b : Q => a.val + I.val ≤ b.val) :=
    ⟨fun a b c hab hbc => by linarith⟩
  have hp := List.chain'_iff_pairwise.mp hch
  exact hp.imp fun hab => by linarith

/-! ## Properties of one day bucket and of the whole assignment -/

theorem distribute_mem_gt {now sd : Q} {c : ℕ} (hn : now.posden) (hsd : sd.posden)
    (hc : 0 < c) :
    ∀ t ∈ distribute_posts_in_day now sd c, now.val < t.val := by
  intro t ht
  exact collect_times_mem_gt hn (posden_dist_st2 hsd c) (posden_dist_interval hsd hc)
    c 0 t ht

theorem distribute_pairwise30 {now sd : Q} {c : ℕ} (hsd : sd.posden) (hc : 0 < c) :
    List.Pairwise (fun a b : Q => a.val + 30 ≤ b.val)
      (distribute_posts_in_day now sd c) :=
  collect_times_pairwise30 (posden_dist_st2 hsd c) (posden_dist_interval hsd hc)
    (dist_interval_ge_min hsd hc) c 0

/-! ## Claim C6 -/

/-- Claim C6: for every input to the scheduler's assignment loop, every
assigned timestamp is strictly after `now` (never in the past at assignment
time), and within one day bucket any two assigned timestamps are at least
the configured minimum interval of 30 minutes apart. -/
theorem c6_no_past_and_min_spacing (now start_time : Q) (ppd : ℕ)
    (hn : now.posden) (hst : start_time.posden) (hppd : 0 < ppd) :
    ∀ fuel day rem b, b ∈ assign_day_buckets now start_time ppd fuel day rem →
      (∀ t ∈ b, now.val < t.val) ∧
        List.Pairwise (fun a b : Q => a.val + 30 ≤ b.val) b := by
  intro fuel
  induction fuel with
  | zero => intro day rem b hb; simp [assign_day_buckets] at hb
  | succ fuel ih =>
    intro day rem b hb
    cases rem with
    | zero => simp [assign_day_buckets] at hb
    | succ r =>
      rw [assign_day_buckets] at hb
      rcases List.mem_cons.mp hb with rfl | hb2
      · have hsd : (qadd start_time (qofInt (1440 * (day : ℤ)))).posden :=
          posden_qadd hst (posden_qofInt _)
        have hc : 0 < min ppd (r + 1) := lt_min_iff.mpr ⟨hppd, Nat.succ_pos r⟩
        exact ⟨distribute_mem_gt hn hsd hc, distribute_pairwise30 hsd hc⟩
      · exact ih (day + 1) _ b hb2

/-- Witness for C6 at a concrete input: the first bucket of the concrete
run of claim C5 contains 570 minutes (09:30), strictly after now = 540. -/
theorem c6_no_past_and_min_spacing_witness :
    (qofInt 540).val < (⟨1710, 3⟩ : Q).val :=
  (c6_no_past_and_min_spacing (qofInt 540) (qofInt 570)
      3 (by decide) (by decide) (by decide) 7 0 7
      [⟨1710, 3⟩, ⟨2520, 3⟩, ⟨3330, 3⟩] (by decide)).1
    ⟨1710, 3⟩ (by decide)

/-! ## Claim C5 -/

/-- Claim C5: with `posts_per_day = 3`, 7 post ids, the 08:00-23:00 window,
a 30-minute minimum interval, and both `now` and the requested start at
09:00 of day 0 (minute 540), the scheduler assigns 3 timestamps on day 0
(09:30, 14:00, 18:30 — within [09:00, 23:00), at least 30 minutes apart),
3 on day 1 (08:00, 13:00, 18:00 — within day 1's [08:00, 23:00) window,
minutes [1920, 2820)), and 1 on day 2 (08:00, minute 3360): 7 in total,
strictly increasing, none in the past at assignment time. -/
theorem c5_example_schedule :
    (assign_day_buckets (qofInt 540) (compute_start_time (qofInt 540) (qofInt 540))
          3 7 0 7).map (fun b => b.map Q.val) =
        [[570, 840, 1110], [1920, 2220, 2520], [3360]] ∧
      (∀ t ∈ ([570, 840, 1110] : List ℚ), 540 ≤ t ∧ t < 1380) ∧
      List.Pairwise (fun a b : ℚ => a + 30 ≤ b) ([570, 840, 1110] : List ℚ) ∧
      (∀ t ∈ ([1920, 2220, 2520] : List ℚ), 1920 ≤ t ∧ t < 2820) ∧
      List.Pairwise (fun a b : ℚ => a + 30 ≤ b) ([1920, 2220, 2520] : List ℚ) ∧
      List.Chain' (fun a b : ℚ => a < b)
        ([570, 840, 1110, 1920, 2220, 2520, 3360] : List ℚ) ∧
      (∀ t ∈ ([570, 840, 1110, 1920, 2220, 2520, 3360] : List ℚ), 540 ≤ t) := by
  have hstruct : assign_day_buckets (qofInt 540)
      (compute_start_time (qofInt 540) (qofInt 540)) 3 7 0 7 =
      [[⟨1710, 3⟩, ⟨2520, 3⟩, ⟨3330, 3⟩], [⟨5760, 3⟩, ⟨6660, 3⟩, ⟨7560, 3⟩],
        [⟨3360, 1⟩]] := by
    decide
  refine ⟨?_, ?_, ?_, ?_, ?_, ?_, ?_⟩
  · rw [hstruct]
    simp only [List.map_cons, List.map_nil]
    norm_num [Q.val]
  · intro t ht
    fin_cases ht <;> norm_num
  · norm_num [List.pairwise_cons]
  · intro t ht
    fin_cases ht <;> norm_num
  · norm_num [List.pairwise_cons]
  · norm_num [List.chain'_cons]
  · intro t ht
    fin_cases ht <;> norm_num

end AutoPost
